import Mathlib

/- Verification of the sapcli ADT protocol layer (src/sap/adt/__init__.py).

   The embedding is shallow: Python strings become `List Char`, Python dicts
   used as header/parameter collections become association lists, the HTTP
   transport (the `requests` library) becomes an explicit oracle
   `Server : AdtRequest → AdtResponse`, and exceptions become an `Except`
   result.  Every operation additionally returns the post-state of the
   mutable Python objects it touches (the ADT object and the Connection)
   together with the list of HTTP requests it issued, so that statements
   such as "fails without issuing any HTTP call" are expressible. -/

deriving instance DecidableEq for Except

namespace Sapcli

/-- Python `str` is modelled as a list of characters. -/
abbrev Str := List Char

/-- Python dictionaries holding HTTP headers or query parameters are
modelled as association lists (the code never stores duplicate keys). -/
abbrev Headers := List (Str × Str)

/-- Query-parameter dictionaries; `params=None` is modelled as `[]`. -/
abbrev Params := List (Str × Str)

/-- Python dict lookup `d[k]` on an association list, returning `none`
where Python raises `KeyError`. -/
def dictGet (d : List (Str × Str)) (k : Str) : Option Str :=
  match d with
  | [] => none
  | (k0, v0) :: rest => if k0 = k then some v0 else dictGet rest k

/-- Python substring test `pat in s` (the `str.__contains__` operator). -/
def isSubstring (pat : Str) (s : Str) : Bool :=
  match s with
  | [] => pat.isPrefixOf []
  | c :: rest => pat.isPrefixOf (c :: rest) || isSubstring pat rest

/-- An HTTP response as seen by the code: status code, headers, body text. -/
structure AdtResponse where
  status_code : Nat
  headers : Headers
  text : Str
deriving DecidableEq, Repr

/-- A prepared HTTP request (`requests.Request` after
`session.prepare_request`): method upper-cased and session headers merged. -/
structure AdtRequest where
  method : Str
  url : Str
  params : Params
  headers : Headers
  body : Option Str
deriving DecidableEq, Repr

/-- The exceptions the embedded code can raise: `SAPCliError` (from
`sap.errors`), `HTTPRequestError` (from `sap.adt.errors`, constructed in
`Connection._execute_with_session` with the prepared request and the
response), Python `KeyError` from a dict lookup, and Python `TypeError`
from subscripting the `None` returned by a failed `re.match`. -/
inductive AdtError where
  | sapcliError (message : Str)
  | httpRequestError (request : AdtRequest) (response : AdtResponse)
  | keyError (key : Str)
  | typeError
deriving DecidableEq, Repr

/-- The external HTTP transport: a deterministic oracle mapping each
prepared request to the response the server sends back. -/
abbrev Server := AdtRequest → AdtResponse

/-- The mutable state of a `requests.Session`: the session-wide headers
(we track only the headers the code itself installs). -/
structure Session where
  headers : Headers
deriving DecidableEq, Repr

/-- Embeds `Connection.__init__` state: URL fragments, user, and the lazily
created session (`self._session`, initially `None`). -/
structure Connection where
  adt_uri : Str
  base_url : Str
  query_args : Str
  user : Str
  session : Option Session
deriving DecidableEq, Repr

/-- Embeds `Connection.__init__(host, client, user, password, port, ssl)`. -/
def Connection.init (host client user _password : Str) (port : Option Str)
    (ssl : Bool) : Connection :=
  let protocol := if ssl then "https".data else "http".data
  let port' := match port with
    | some p => p
    | none => if ssl then "443".data else "80".data
  { adt_uri := "sap/bc/adt".data
    base_url := protocol ++ "://".data ++ host ++ ":".data ++ port'
      ++ "/".data ++ "sap/bc/adt".data
    query_args := "sap-client=".data ++ client ++ "&saml2=disabled".data
    user := user
    session := none }

/-- Embeds `Connection._build_adt_url(adt_uri)`. -/
def Connection.build_adt_url (conn : Connection) (adt_uri : Str) : Str :=
  conn.base_url ++ "/".data ++ adt_uri ++ "?".data ++ conn.query_args

/-- Embeds `session.prepare_request(requests.Request(method.upper(), url, ...))`:
the prepared request carries the upper-cased method and the session-wide
headers merged with the per-request headers (request headers win). -/
def prepare_request (sessionHeaders : Headers) (method url : Str)
    (params : Params) (headers : Headers) (body : Option Str) : AdtRequest :=
  { method := method.map Char.toUpper
    url := url
    params := params
    headers := sessionHeaders.filter
        (fun kv => !(headers.any (fun kv2 => kv2.1 == kv.1))) ++ headers
    body := body }

/-- Outcome of `Connection._execute_with_session`: the result (response or
raised exception) and the HTTP requests actually sent. -/
structure ExecOutcome where
  result : Except AdtError AdtResponse
  trace : List AdtRequest
deriving DecidableEq, Repr

/-- Embeds `Connection._execute_with_session(session, method, url, params,
headers, body)`: prepares the request, sends it once, and raises
`HTTPRequestError(req, res)` when `res.status_code >= 400`. -/
def execute_with_session (server : Server) (sessionHeaders : Headers)
    (method url : Str) (params : Params) (headers : Headers)
    (body : Option Str) : ExecOutcome :=
  if 400 ≤ (server (prepare_request sessionHeaders method url params headers body)).status_code then
    { result := .error (.httpRequestError
        (prepare_request sessionHeaders method url params headers body)
        (server (prepare_request sessionHeaders method url params headers body)))
      trace := [prepare_request sessionHeaders method url params headers body] }
  else
    { result := .ok (server (prepare_request sessionHeaders method url params headers body))
      trace := [prepare_request sessionHeaders method url params headers body] }

/-- Outcome of `Connection._get_session`: the session (or raised
exception), the post-state of the connection, and the requests issued. -/
structure SessionOutcome where
  result : Except AdtError Session
  conn : Connection
  trace : List AdtRequest
deriving DecidableEq, Repr

/-- The CSRF-token discovery request `_get_session` issues on a fresh
session: `GET core/discovery` with the header `x-csrf-token: Fetch`. -/
def discovery_request (conn : Connection) : AdtRequest :=
  prepare_request [] "GET".data (conn.build_adt_url "core/discovery".data)
    [] [("x-csrf-token".data, "Fetch".data)] none

/-- Embeds `Connection._get_session`: returns the existing session, or creates a
fresh one, fetches the CSRF token via the discovery request, and installs
the token as a session-wide header.  Mirrors the Python control flow: the
new session object is assigned to `self._session` before the discovery
call, so it remains stored (without the token header) even when the
discovery call raises. -/
def Connection.get_session (server : Server) (conn : Connection) : SessionOutcome :=
  match conn.session with
  | some s => { result := .ok s, conn := conn, trace := [] }
  | none =>
    match execute_with_session server [] "GET".data
        (conn.build_adt_url "core/discovery".data) []
        [("x-csrf-token".data, "Fetch".data)] none with
    | { result := .ok response, trace := tr } =>
      match dictGet response.headers "x-csrf-token".data with
      | some tok =>
        { result := .ok { headers := [("x-csrf-token".data, tok)] }
          conn := { conn with session := some { headers := [("x-csrf-token".data, tok)] } }
          trace := tr }
      | none =>
        { result := .error (.keyError "x-csrf-token".data)
          conn := { conn with session := some { headers := [] } }
          trace := tr }
    | { result := .error e, trace := tr } =>
      { result := .error e
        conn := { conn with session := some { headers := [] } }
        trace := tr }

/-- Outcome of `Connection.execute`: response (or raised exception),
post-state of the connection, issued requests. -/
structure ExecuteOutcome where
  result : Except AdtError AdtResponse
  conn : Connection
  trace : List AdtRequest
deriving DecidableEq, Repr

/-- Embeds `Connection.execute(method, adt_uri, params, headers, body)`: obtains
the working session (creating it on first use) and executes the request
through it. -/
def Connection.execute (server : Server) (conn : Connection) (method adt_uri : Str)
    (params : Params) (headers : Headers) (body : Option Str) : ExecuteOutcome :=
  match conn.get_session server with
  | { result := .error e, conn := conn1, trace := tr1 } =>
    { result := .error e, conn := conn1, trace := tr1 }
  | { result := .ok s, conn := conn1, trace := tr1 } =>
    match execute_with_session server s.headers method
        (conn1.build_adt_url adt_uri) params headers body with
    | { result := r, trace := tr2 } =>
      { result := r, conn := conn1, trace := tr1 ++ tr2 }

/-- Module-level constant `LOCK_ACCESS_MODE_MODIFY`. -/
def LOCK_ACCESS_MODE_MODIFY : Str := "MODIFY".data

/-- Embeds `lock_params(access_mode)`. -/
def lock_params (access_mode : Str) : Params :=
  [("_action".data, "LOCK".data), ("accessMode".data, access_mode)]

/-- Embeds `unlock_params(lock_handle)`. -/
def unlock_params (lock_handle : Str) : Params :=
  [("_action".data, "UNLOCK".data), ("lockHandle".data, lock_handle)]

/-- Embeds `activation_params()`. -/
def activation_params : Params :=
  [("method".data, "activate".data), ("preauditRequested".data, "true".data)]

/-- Embeds `ADTObjectType.__init__` attributes (one shared instance per kind). -/
structure ADTObjectType where
  code : Str
  basepath : Str
  xmlnamespace : Str × Str
  mimetype : Str
  typeuris : List (Str × Str)
  xmlname : Str
deriving DecidableEq, Repr

/-- The literal (non-interpolated) message of the `SAPCliError` raised by
`ADTObjectType.get_uri_for_type` on a missing MIME type mapping:
`Object {type} does not support plain 'text' format`.  The braces are
literal text (the Python source is a plain string, not an f-string). -/
def unsupported_format_message : Str :=
  "Object \x7btype\x7d does not support plain ".data
    ++ [Char.ofNat 39] ++ "text".data ++ [Char.ofNat 39] ++ " format".data

/-- Embeds `ADTObjectType.get_uri_for_type(mimetype)`: the mapped URL suffix
prefixed with a slash, or `SAPCliError` on a `KeyError`. -/
def ADTObjectType.get_uri_for_type (t : ADTObjectType) (mimetype : Str) :
    Except AdtError Str :=
  match dictGet t.typeuris mimetype with
  | some uri => .ok ('/' :: uri)
  | none => .error (.sapcliError unsupported_format_message)

/-- Embeds `Program.OBJTYPE`. -/
def Program.OBJTYPE : ADTObjectType :=
  { code := "PROG/P".data
    basepath := "programs/programs".data
    xmlnamespace := ("program".data, "http://www.sap.com/adt/programs/programs".data)
    mimetype := "application/vnd.sap.adt.programs.programs.v2+xml".data
    typeuris := [("text/plain".data, "source/main".data)]
    xmlname := "abapProgram".data }

/-- Embeds `Package.OBJTYPE` (note the empty `typeuris` mapping). -/
def Package.OBJTYPE : ADTObjectType :=
  { code := "DEVC/K".data
    basepath := "packages".data
    xmlnamespace := ("pak".data, "http://www.sap.com/adt/packages".data)
    mimetype := "application/vnd.sap.adt.packages.v1+xml".data
    typeuris := []
    xmlname := "package".data }

/-- The state of an `ADTObject` instance relevant to the session protocol:
its type descriptor, its name, and the lock handle `self._lock`
(`None` when not locked). -/
structure ADTObject where
  objtype : ADTObjectType
  name : Str
  _lock : Option Str
deriving DecidableEq, Repr

/-- Embeds `ADTObject.uri`: `basepath + '/' + name.lower()`. -/
def ADTObject.uri (obj : ADTObject) : Str :=
  obj.objtype.basepath ++ '/' :: obj.name.map Char.toLower

/-- Outcome of an ADT object operation: raised exception or unit, the
post-state of the object and of the connection, and the issued requests. -/
structure OpOutcome where
  result : Except AdtError Unit
  obj : ADTObject
  conn : Connection
  trace : List AdtRequest
deriving DecidableEq, Repr

/-- The `Accept` header value of the lock request: the two lock-result
content-type variants joined with a comma (`', '.join([...])`). -/
def lock_accept_header : Str :=
  "application/vnd.sap.as+xml;charset=UTF-8;dataname=com.sap.adt.lock.result;q=0.8".data
    ++ ", ".data
    ++ "application/vnd.sap.as+xml;charset=UTF-8;dataname=com.sap.adt.lock.result2;q=0.9".data

/-- The headers of the lock request. -/
def lock_request_headers : Headers :=
  [("X-sap-adt-sessiontype".data, "stateful".data),
   ("Accept".data, lock_accept_header)]

/-- The content-type marker `lock()` requires in the response:
`dataname=com.sap.adt.lock.Result`. -/
def lock_result_marker : Str := "dataname=com.sap.adt.lock.Result".data

/-- The literal `<LOCK_HANDLE>` of the scrape pattern. -/
def OPEN_TAG : Str := "<LOCK_HANDLE>".data

/-- The literal `</LOCK_HANDLE>` of the scrape pattern. -/
def CLOSE_TAG : Str := "</LOCK_HANDLE>".data

/-- Splits `s` around the last occurrence of `pat`: returns
`some (before, after)` with `s = before ++ pat ++ after` and no occurrence
of `pat` starting later, or `none` when `pat` does not occur. -/
def lastSplit (pat : Str) (s : Str) : Option (Str × Str) :=
  match s with
  | [] => if pat.isPrefixOf [] then some ([], []) else none
  | c :: rest =>
    match lastSplit pat rest with
    | some (b, a) => some (c :: b, a)
    | none =>
      if pat.isPrefixOf (c :: rest) then
        some ([], List.drop pat.length (c :: rest))
      else none

/-- Python `re.match('.*<LOCK_HANDLE>(.*)</LOCK_HANDLE>.*', text)`, group 1.
The pattern is anchored at the start of `text` and `.` does not match a
newline, so the whole match lies within the first line of `text`.  Greedy
matching picks, within that line, the last `</LOCK_HANDLE>` occurrence,
and before it the last `<LOCK_HANDLE>` occurrence; group 1 is the text
between them.  Returns `none` where Python has no match (the subsequent
`[1]` subscript then raises `TypeError`). -/
def re_match_lock_handle (text : Str) : Option Str :=
  match lastSplit CLOSE_TAG (text.takeWhile (fun c => c != '\n')) with
  | none => none
  | some (before_close, _) =>
    match lastSplit OPEN_TAG before_close with
    | none => none
    | some (_, capture) => some capture

/-- Embeds `ADTObject.lock()`: raises `SAPCliError` when already locked locally
(issuing no HTTP request); otherwise POSTs the lock action, requires the
`Content-Type` of the response to contain the marker, scrapes the lock
handle out of the body and stores it in `self._lock`. -/
def ADTObject.lock (server : Server) (conn : Connection) (obj : ADTObject) : OpOutcome :=
  match obj._lock with
  | some _ =>
    { result := .error (.sapcliError
        ("Object ".data ++ obj.uri ++ ": already locked".data))
      obj := obj, conn := conn, trace := [] }
  | none =>
    match Connection.execute server conn "POST".data obj.uri
        (lock_params LOCK_ACCESS_MODE_MODIFY) lock_request_headers none with
    | { result := .error e, conn := conn1, trace := tr } =>
      { result := .error e, obj := obj, conn := conn1, trace := tr }
    | { result := .ok resp, conn := conn1, trace := tr } =>
      match dictGet resp.headers "Content-Type".data with
      | none =>
        { result := .error (.keyError "Content-Type".data)
          obj := obj, conn := conn1, trace := tr }
      | some ct =>
        if isSubstring lock_result_marker ct then
          match re_match_lock_handle resp.text with
          | some handle =>
            { result := .ok ()
              obj := { obj with _lock := some handle }
              conn := conn1, trace := tr }
          | none =>
            { result := .error .typeError, obj := obj, conn := conn1, trace := tr }
        else
          { result := .error (.sapcliError
              ("Object ".data ++ obj.uri
                ++ ": lock response does not have lock result\n".data
                ++ resp.text))
            obj := obj, conn := conn1, trace := tr }

/-- Embeds `ADTObject.unlock()`: raises `SAPCliError` when not locked locally
(issuing no HTTP request); otherwise POSTs the unlock action with the
stored handle and clears `self._lock`. -/
def ADTObject.unlock (server : Server) (conn : Connection) (obj : ADTObject) : OpOutcome :=
  match obj._lock with
  | none =>
    { result := .error (.sapcliError
        ("Object ".data ++ obj.uri ++ ": not locked".data))
      obj := obj, conn := conn, trace := [] }
  | some handle =>
    match Connection.execute server conn "POST".data obj.uri
        (unlock_params handle)
        [("X-sap-adt-sessiontype".data, "stateful".data)] none with
    | { result := .error e, conn := conn1, trace := tr } =>
      { result := .error e, obj := obj, conn := conn1, trace := tr }
    | { result := .ok _, conn := conn1, trace := tr } =>
      { result := .ok (), obj := { obj with _lock := none }, conn := conn1, trace := tr }

/-- The fixed-shape XML body `activate()` sends. -/
def activation_request_body (conn : Connection) (obj : ADTObject) : Str :=
  "<?xml version=\"1.0\" encoding=\"UTF-8\"?>\n".data
    ++ "<adtcore:objectReferences xmlns:adtcore=\"http://www.sap.com/adt/core\">\n".data
    ++ "<adtcore:objectReference adtcore:uri=\"/".data ++ conn.adt_uri
    ++ "/".data ++ obj.uri ++ "\" adtcore:name=\"".data
    ++ obj.name.map Char.toUpper ++ "\"/>\n".data
    ++ "</adtcore:objectReferences>".data

/-- The headers of the activation request. -/
def activation_headers : Headers :=
  [("Accept".data, "application/xml".data),
   ("Content-Type".data, "application/xml".data)]

/-- Embeds `ADTObject.activate()`: POSTs the activation request; an empty
response body is success, a non-empty body raises `SAPCliError` carrying
that body.  The object's local state is never modified. -/
def ADTObject.activate (server : Server) (conn : Connection) (obj : ADTObject) : OpOutcome :=
  match Connection.execute server conn "POST".data "activation".data
      activation_params activation_headers
      (some (activation_request_body conn obj)) with
  | { result := .error e, conn := conn1, trace := tr } =>
    { result := .error e, obj := obj, conn := conn1, trace := tr }
  | { result := .ok resp, conn := conn1, trace := tr } =>
    if resp.text = [] then
      { result := .ok (), obj := obj, conn := conn1, trace := tr }
    else
      { result := .error (.sapcliError
          ("Could not activate the object ".data ++ obj.name
            ++ ": ".data ++ resp.text))
        obj := obj, conn := conn1, trace := tr }

/-- A Python class as seen by the metaclass `OrderedClassMembers`: the
`__ordered__` attribute when present (`hasattr(parent, '__ordered__')`). -/
structure PyClass where
  ordered : Option (List String)
deriving DecidableEq, Repr

/-- Embeds `OrderedClassMembers.__new__(mcs, name, bases, classdict)` computation
of the `__ordered__` registry: the last base's `__ordered__` (when bases
are present and the last base has one) extended with the class-body keys
in declaration order (`__prepare__` returns an `OrderedDict`), minus
`__module__` and `__qualname__`. -/
def ordered_members (bases : List PyClass) (classdict : List String) : List String :=
  (match bases.getLast? with
   | some parent =>
     match parent.ordered with
     | some po => po
     | none => []
   | none => [])
  ++ classdict.filter (fun key => key != "__module__" && key != "__qualname__")

/- Helper lemmas about the list-level scaffolding. -/

theorem takeWhile_append_of_all (p : Char → Bool) (l1 l2 : List Char)
    (h : ∀ x ∈ l1, p x = true) :
    (l1 ++ l2).takeWhile p = l1 ++ l2.takeWhile p := by
  induction l1 with
  | nil => simp
  | cons c cs ih =>
    simp only [List.cons_append, List.takeWhile]
    rw [h c (by simp)]
    simp only [List.cons.injEq, true_and]
    exact ih (fun x hx => h x (by simp [hx]))

theorem lastSplit_sound (pat : Str) (s b a : Str)
    (h : lastSplit pat s = some (b, a)) : s = b ++ pat ++ a := by
  induction s generalizing b a with
  | nil =>
    unfold lastSplit at h
    split at h
    · next hpre =>
      have hp : pat <+: ([] : Str) := List.isPrefixOf_iff_prefix.mp hpre
      have hpe : pat = [] := List.prefix_nil.mp hp
      simp only [Option.some.injEq, Prod.mk.injEq] at h
      simp [← h.1, ← h.2, hpe]
    · exact absurd h (by simp)
  | cons c rest ih =>
    unfold lastSplit at h
    cases hrec : lastSplit pat rest with
    | some p0 =>
      obtain ⟨b0, a0⟩ := p0
      rw [hrec] at h
      simp only [Option.some.injEq, Prod.mk.injEq] at h
      have := ih b0 a0 hrec
      rw [← h.1, ← h.2, this]
      simp
    | none =>
      rw [hrec] at h
      by_cases hpre : pat.isPrefixOf (c :: rest) = true
      · rw [if_pos hpre] at h
        obtain ⟨t, ht⟩ : pat <+: (c :: rest) := List.isPrefixOf_iff_prefix.mp hpre
        simp only [Option.some.injEq, Prod.mk.injEq] at h
        rw [← h.1, ← h.2, ← ht]
        simp [List.drop_left]
      · rw [if_neg hpre] at h
        exact absurd h (by simp)

theorem lastSplit_last (pat b aft : Str) (hpat : pat ≠ [])
    (hno : ∀ b2 a2, pat.drop 1 ++ aft ≠ b2 ++ pat ++ a2) :
    lastSplit pat (b ++ pat ++ aft) = some (b, aft) := by
  induction b with
  | nil =>
    obtain ⟨pc, pr, hpe⟩ : ∃ pc pr, pat = pc :: pr := by
      cases pat with
      | nil => exact absurd rfl hpat
      | cons pc pr => exact ⟨pc, pr, rfl⟩
    have hshape : ([] : Str) ++ pat ++ aft = pc :: (pr ++ aft) := by simp [hpe]
    rw [hshape]
    unfold lastSplit
    have hrec : lastSplit pat (pr ++ aft) = none := by
      cases hrec : lastSplit pat (pr ++ aft) with
      | none => rfl
      | some p0 =>
        obtain ⟨b2, a2⟩ := p0
        have := lastSplit_sound pat (pr ++ aft) b2 a2 hrec
        have hdrop : pat.drop 1 ++ aft = pr ++ aft := by simp [hpe]
        exact absurd (hdrop.trans this) (hno b2 a2)
    rw [hrec]
    have hpre : pat.isPrefixOf (pc :: (pr ++ aft)) = true := by
      apply List.isPrefixOf_iff_prefix.mpr
      rw [hpe]
      exact ⟨aft, by simp⟩
    rw [hpre]
    simp only [if_true]
    have : List.drop pat.length (pc :: (pr ++ aft)) = aft := by
      rw [hpe]
      simp only [List.length_cons, List.drop_succ_cons]
      exact List.drop_left pr aft
    rw [this]
  | cons x b' ih =>
    have hshape : (x :: b') ++ pat ++ aft = x :: (b' ++ pat ++ aft) := by simp
    rw [hshape]
    unfold lastSplit
    rw [ih]

theorem isSubstring_iff (pat s : Str) :
    isSubstring pat s = true ↔ ∃ b a, s = b ++ pat ++ a := by
  induction s with
  | nil =>
    unfold isSubstring
    constructor
    · intro hpre
      have hp : pat <+: ([] : Str) := List.isPrefixOf_iff_prefix.mp hpre
      exact ⟨[], [], by simp [List.prefix_nil.mp hp]⟩
    · rintro ⟨b, a, hba⟩
      have := List.append_eq_nil.mp (List.append_eq_nil.mp hba.symm).1
      apply List.isPrefixOf_iff_prefix.mpr
      simp [this.2]
  | cons c rest ih =>
    unfold isSubstring
    rw [Bool.or_eq_true]
    constructor
    · rintro (hpre | hsub)
      · obtain ⟨t, ht⟩ : pat <+: (c :: rest) := List.isPrefixOf_iff_prefix.mp hpre
        exact ⟨[], t, by simp [← ht]⟩
      · obtain ⟨b, a, hba⟩ := ih.mp hsub
        exact ⟨c :: b, a, by simp [hba]⟩
    · rintro ⟨b, a, hba⟩
      cases b with
      | nil =>
        left
        apply List.isPrefixOf_iff_prefix.mpr
        exact ⟨a, by simp [hba]⟩
      | cons x b' =>
        right
        simp only [List.cons_append, List.cons.injEq] at hba
        exact ih.mpr ⟨b', a, hba.2⟩

theorem no_split_of_not_mem (pat s : Str) (ch : Char)
    (hc : ch ∈ pat) (hs : ch ∉ s) : ∀ b a, s ≠ b ++ pat ++ a := by
  intro b a h
  apply hs
  rw [h]
  simp only [List.append_assoc, List.mem_append]
  exact Or.inr (Or.inl hc)

/- Characterization of the lock-handle scrape on a well-formed body. -/

theorem re_match_lock_handle_eq (a h c : Str)
    (ha : '\n' ∉ a) (hh_nl : '\n' ∉ h) (hh_lt : '<' ∉ h)
    (honce : ∀ b2 a2,
      CLOSE_TAG.drop 1 ++ c.takeWhile (fun ch => ch != '\n') ≠ b2 ++ CLOSE_TAG ++ a2) :
    re_match_lock_handle (a ++ OPEN_TAG ++ h ++ CLOSE_TAG ++ c) = some h := by
  have hline : (a ++ OPEN_TAG ++ h ++ CLOSE_TAG ++ c).takeWhile (fun ch => ch != '\n')
      = (a ++ OPEN_TAG ++ h ++ CLOSE_TAG) ++ c.takeWhile (fun ch => ch != '\n') := by
    apply takeWhile_append_of_all
    intro x hx
    simp only [List.append_assoc, List.mem_append] at hx
    have hxne : x ≠ '\n' := by
      rcases hx with hx | hx | hx | hx
      · exact fun he => ha (he ▸ hx)
      · intro he; revert hx; rw [he]; decide
      · exact fun he => hh_nl (he ▸ hx)
      · intro he; revert hx; rw [he]; decide
    simp [hxne]
  unfold re_match_lock_handle
  rw [hline]
  have hclose : lastSplit CLOSE_TAG
      ((a ++ OPEN_TAG ++ h ++ CLOSE_TAG) ++ c.takeWhile (fun ch => ch != '\n'))
      = some (a ++ OPEN_TAG ++ h, c.takeWhile (fun ch => ch != '\n')) := by
    have hre : (a ++ OPEN_TAG ++ h ++ CLOSE_TAG) ++ c.takeWhile (fun ch => ch != '\n')
        = (a ++ OPEN_TAG ++ h) ++ CLOSE_TAG ++ c.takeWhile (fun ch => ch != '\n') := by
      simp
    rw [hre]
    exact lastSplit_last CLOSE_TAG (a ++ OPEN_TAG ++ h)
      (c.takeWhile (fun ch => ch != '\n')) (by decide) honce
  have hopen : lastSplit OPEN_TAG (a ++ OPEN_TAG ++ h) = some (a, h) := by
    apply lastSplit_last OPEN_TAG a h (by decide)
    apply no_split_of_not_mem OPEN_TAG (OPEN_TAG.drop 1 ++ h) '<' (by decide)
    intro hmem
    rw [List.mem_append] at hmem
    rcases hmem with hmem | hmem
    · revert hmem; decide
    · exact hh_lt hmem
  simp only [hclose, hopen]

/- Lemmas about session establishment and request execution. -/

theorem get_session_of_some (server : Server) (conn : Connection) (s : Session)
    (h : conn.session = some s) :
    conn.get_session server = { result := .ok s, conn := conn, trace := [] } := by
  unfold Connection.get_session
  rw [h]

theorem execute_of_session_some (server : Server) (conn : Connection) (s : Session)
    (m u : Str) (p : Params) (hs : Headers) (b : Option Str)
    (h : conn.session = some s) :
    Connection.execute server conn m u p hs b =
      { result := (execute_with_session server s.headers m (conn.build_adt_url u) p hs b).result
        conn := conn
        trace := (execute_with_session server s.headers m (conn.build_adt_url u) p hs b).trace } := by
  unfold Connection.execute
  rw [get_session_of_some server conn s h]
  rcases hE : execute_with_session server s.headers m (conn.build_adt_url u) p hs b with ⟨r, tr⟩
  simp [hE]

theorem execute_of_session_none_ok (server : Server) (conn : Connection)
    (m u : Str) (p : Params) (hs : Headers) (b : Option Str)
    (respd : AdtResponse) (trd : List AdtRequest) (tok : Str)
    (hs0 : conn.session = none)
    (hd : execute_with_session server [] "GET".data
        (conn.build_adt_url "core/discovery".data) []
        [("x-csrf-token".data, "Fetch".data)] none
      = { result := .ok respd, trace := trd })
    (hdt : dictGet respd.headers "x-csrf-token".data = some tok) :
    Connection.execute server conn m u p hs b =
      { result := (execute_with_session server [("x-csrf-token".data, tok)] m
          (conn.build_adt_url u) p hs b).result
        conn := { conn with session := some { headers := [("x-csrf-token".data, tok)] } }
        trace := trd ++ (execute_with_session server [("x-csrf-token".data, tok)] m
          (conn.build_adt_url u) p hs b).trace } := by
  unfold Connection.execute Connection.get_session
  rw [hs0, hd]
  dsimp only
  rw [hdt]
  dsimp only
  simp only [Connection.build_adt_url]

theorem execute_ok_session (server : Server) (conn : Connection)
    (m u : Str) (p : Params) (hs : Headers) (b : Option Str) (resp : AdtResponse)
    (h : (Connection.execute server conn m u p hs b).result = .ok resp) :
    ∃ s, (Connection.execute server conn m u p hs b).conn.session = some s ∧
      (Connection.execute server conn m u p hs b).conn.base_url = conn.base_url ∧
      (Connection.execute server conn m u p hs b).conn.query_args = conn.query_args ∧
      (execute_with_session server s.headers m (conn.build_adt_url u) p hs b).result = .ok resp := by
  cases hs0 : conn.session with
  | some s =>
    rw [execute_of_session_some server conn s m u p hs b hs0] at h ⊢
    exact ⟨s, hs0, rfl, rfl, h⟩
  | none =>
    rcases hd : execute_with_session server [] "GET".data
        (conn.build_adt_url "core/discovery".data) []
        [("x-csrf-token".data, "Fetch".data)] none with ⟨rd, trd⟩
    cases rd with
    | error e =>
      have heq : Connection.execute server conn m u p hs b =
          { result := .error e
            conn := { conn with session := some { headers := [] } }
            trace := trd } := by
        unfold Connection.execute Connection.get_session
        rw [hs0, hd]
      rw [heq] at h
      simp at h
    | ok respd =>
      cases hdt : dictGet respd.headers "x-csrf-token".data with
      | none =>
        have heq : Connection.execute server conn m u p hs b =
            { result := .error (.keyError "x-csrf-token".data)
              conn := { conn with session := some { headers := [] } }
              trace := trd } := by
          unfold Connection.execute Connection.get_session
          rw [hs0, hd]
          dsimp only
          rw [hdt]
        rw [heq] at h
        simp at h
      | some tok =>
        rw [execute_of_session_none_ok server conn m u p hs b respd trd tok hs0 hd hdt] at h ⊢
        exact ⟨{ headers := [("x-csrf-token".data, tok)] }, rfl, rfl, rfl, h⟩

theorem ews_trace (server : Server) (sessionHeaders : Headers)
    (method url : Str) (params : Params) (headers : Headers) (body : Option Str) :
    (execute_with_session server sessionHeaders method url params headers body).trace
      = [prepare_request sessionHeaders method url params headers body] := by
  unfold execute_with_session
  split <;> rfl

/-- C8: every HTTP exchange performed through the Connection goes through
`_execute_with_session`, which sends the prepared request exactly once (no
retry), raises `HTTPRequestError` carrying the prepared request and the
response when the status code is at least 400, and returns the response
unchanged to the caller when the status code is below 400. -/
theorem C8_http_exchange_status (server : Server) (sessionHeaders : Headers)
    (method url : Str) (params : Params) (headers : Headers) (body : Option Str) :
    (execute_with_session server sessionHeaders method url params headers body).trace
      = [prepare_request sessionHeaders method url params headers body] ∧
    (400 ≤ (server (prepare_request sessionHeaders method url params headers body)).status_code →
      (execute_with_session server sessionHeaders method url params headers body).result
        = .error (.httpRequestError
            (prepare_request sessionHeaders method url params headers body)
            (server (prepare_request sessionHeaders method url params headers body)))) ∧
    ((server (prepare_request sessionHeaders method url params headers body)).status_code < 400 →
      (execute_with_session server sessionHeaders method url params headers body).result
        = .ok (server (prepare_request sessionHeaders method url params headers body))) := by
  refine ⟨ews_trace server sessionHeaders method url params headers body, ?_, ?_⟩
  · intro hge
    unfold execute_with_session
    rw [if_pos hge]
  · intro hlt
    unfold execute_with_session
    rw [if_neg (by omega)]

/-- An always-failing HTTP server, for the C8 witness. -/
def failing_server : Server := fun _ =>
  { status_code := 500, headers := [], text := "failure".data }

/-- An always-succeeding HTTP server with no headers and an empty body. -/
def trivial_server : Server := fun _ =>
  { status_code := 200, headers := [], text := [] }

/-- Witness for C8: a 500 response raises `HTTPRequestError` with the
request and response; a 200 response is returned unchanged. -/
theorem C8_http_exchange_status_witness :
    (execute_with_session failing_server [] "post".data "u".data [] [] none).result
      = .error (.httpRequestError (prepare_request [] "post".data "u".data [] [] none)
          (failing_server (prepare_request [] "post".data "u".data [] [] none))) ∧
    (execute_with_session trivial_server [] "post".data "u".data [] [] none).result
      = .ok (trivial_server (prepare_request [] "post".data "u".data [] [] none)) :=
  ⟨(C8_http_exchange_status failing_server [] "post".data "u".data [] [] none).2.1 (by decide),
   (C8_http_exchange_status trivial_server [] "post".data "u".data [] [] none).2.2 (by decide)⟩

/-- C9: on a Connection with no session, the first `execute` issues the
`GET core/discovery` request with header `x-csrf-token: Fetch` followed by
the actual request carrying the stored token as a session-wide header, and
stores the session; a subsequent `execute` on the resulting connection
issues only its own request (no discovery) and leaves the connection, and
hence its single session, unchanged. -/
theorem C9_single_session (server : Server) (conn : Connection) (tok : Str)
    (m u : Str) (p : Params) (hs : Headers) (b : Option Str)
    (m2 u2 : Str) (p2 : Params) (hs2 : Headers) (b2 : Option Str)
    (hnone : conn.session = none)
    (hstatus : (server (discovery_request conn)).status_code < 400)
    (htok : dictGet (server (discovery_request conn)).headers "x-csrf-token".data
      = some tok) :
    (Connection.execute server conn m u p hs b).trace
      = discovery_request conn
          :: [prepare_request [("x-csrf-token".data, tok)] m (conn.build_adt_url u) p hs b] ∧
    (Connection.execute server conn m u p hs b).conn.session
      = some { headers := [("x-csrf-token".data, tok)] } ∧
    (Connection.execute server
        (Connection.execute server conn m u p hs b).conn m2 u2 p2 hs2 b2).trace
      = [prepare_request [("x-csrf-token".data, tok)] m2 (conn.build_adt_url u2) p2 hs2 b2] ∧
    (Connection.execute server
        (Connection.execute server conn m u p hs b).conn m2 u2 p2 hs2 b2).conn
      = (Connection.execute server conn m u p hs b).conn := by
  have hdisc : execute_with_session server [] "GET".data
      (conn.build_adt_url "core/discovery".data) []
      [("x-csrf-token".data, "Fetch".data)] none
      = { result := .ok (server (discovery_request conn))
          trace := [discovery_request conn] } := by
    unfold execute_with_session discovery_request
    rw [if_neg (by unfold discovery_request at hstatus; omega)]
  have heq1 := execute_of_session_none_ok server conn m u p hs b
    (server (discovery_request conn)) [discovery_request conn] tok hnone hdisc htok
  rw [heq1]
  refine ⟨?_, rfl, ?_, ?_⟩
  · rw [ews_trace]
    rfl
  · rw [execute_of_session_some server
      { conn with session := some { headers := [("x-csrf-token".data, tok)] } }
      { headers := [("x-csrf-token".data, tok)] } m2 u2 p2 hs2 b2 rfl]
    rw [ews_trace]
    simp [Connection.build_adt_url]
  · rw [execute_of_session_some server
      { conn with session := some { headers := [("x-csrf-token".data, tok)] } }
      { headers := [("x-csrf-token".data, tok)] } m2 u2 p2 hs2 b2 rfl]

/-- A server answering every request with status 200, a CSRF token header
and an empty body, for the C9 witness. -/
def csrf_server : Server := fun _ =>
  { status_code := 200, headers := [("x-csrf-token".data, "tokX".data)], text := [] }

/-- A fresh connection for the C9 witness. -/
def fresh_conn : Connection :=
  Connection.init "h".data "001".data "u".data "p".data none true

/-- Witness for C9: after the first `execute` on a fresh connection the
session stores the token delivered by the discovery response. -/
theorem C9_single_session_witness :
    (Connection.execute csrf_server fresh_conn "POST".data "u1".data [] [] none).conn.session
      = some { headers := [("x-csrf-token".data, "tokX".data)] } :=
  (C9_single_session csrf_server fresh_conn "tokX".data "POST".data "u1".data [] [] none
    "GET".data "u2".data [] [] none rfl (by decide) (by decide)).2.1

/-- C2: `lock()` on a locally locked object and `unlock()` on a locally
not-locked object each raise `SAPCliError` immediately: no HTTP request is
issued (empty trace) and both the object's lock token and the connection
are left unchanged. -/
theorem C2_local_state_errors (server : Server) (conn : Connection)
    (locked unlocked : ADTObject) (handle : Str)
    (hl : locked._lock = some handle) (hu : unlocked._lock = none) :
    ADTObject.lock server conn locked
      = { result := .error (.sapcliError
            ("Object ".data ++ locked.uri ++ ": already locked".data))
          obj := locked, conn := conn, trace := [] } ∧
    ADTObject.unlock server conn unlocked
      = { result := .error (.sapcliError
            ("Object ".data ++ unlocked.uri ++ ": not locked".data))
          obj := unlocked, conn := conn, trace := [] } := by
  constructor
  · unfold ADTObject.lock
    rw [hl]
  · unfold ADTObject.unlock
    rw [hu]

/-- A locked Program object, for witnesses. -/
def locked_obj : ADTObject :=
  { objtype := Program.OBJTYPE, name := "ZFOO".data, _lock := some "H1".data }

/-- An unlocked Program object, for witnesses. -/
def unlocked_obj : ADTObject :=
  { objtype := Program.OBJTYPE, name := "ZFOO".data, _lock := none }

/-- Witness for C2: the state-protocol errors issue no HTTP request. -/
theorem C2_local_state_errors_witness :
    (ADTObject.lock trivial_server fresh_conn locked_obj).trace = [] ∧
    (ADTObject.unlock trivial_server fresh_conn unlocked_obj).trace = [] := by
  have h := C2_local_state_errors trivial_server fresh_conn locked_obj unlocked_obj
    "H1".data rfl rfl
  exact ⟨by rw [h.1], by rw [h.2]⟩

/-- C4: when the lock response carries a `Content-Type` header lacking the
marker `dataname=com.sap.adt.lock.Result`, `lock()` raises a `SAPCliError`
whose message includes the response body (the body is a suffix of the
message), and the object's local lock token stays absent. -/
theorem C4_lock_missing_marker (server : Server) (conn : Connection) (obj : ADTObject)
    (resp : AdtResponse) (ct : Str)
    (hnone : obj._lock = none)
    (hexec : (Connection.execute server conn "POST".data obj.uri
        (lock_params LOCK_ACCESS_MODE_MODIFY) lock_request_headers none).result = .ok resp)
    (hct : dictGet resp.headers "Content-Type".data = some ct)
    (hmarker : isSubstring lock_result_marker ct = false) :
    (ADTObject.lock server conn obj).result
      = .error (.sapcliError ("Object ".data ++ obj.uri
          ++ ": lock response does not have lock result\n".data ++ resp.text)) ∧
    (ADTObject.lock server conn obj).obj._lock = none ∧
    resp.text <:+ ("Object ".data ++ obj.uri
        ++ ": lock response does not have lock result\n".data ++ resp.text) := by
  rcases hE : Connection.execute server conn "POST".data obj.uri
      (lock_params LOCK_ACCESS_MODE_MODIFY) lock_request_headers none with ⟨r, conn1, tr⟩
  rw [hE] at hexec
  dsimp only at hexec
  subst hexec
  unfold ADTObject.lock
  rw [hnone, hE]
  dsimp only
  rw [hct]
  dsimp only
  rw [if_neg (by simp [hmarker])]
  exact ⟨rfl, hnone, List.suffix_append _ _⟩

/-- A server whose lock response lacks the lock-result marker in its
`Content-Type` header, for the C4 witness. -/
def nomarker_server : Server := fun req =>
  if req.params = lock_params LOCK_ACCESS_MODE_MODIFY then
    { status_code := 200
      headers := [("Content-Type".data, "text/html".data)]
      text := "oops".data }
  else
    { status_code := 200, headers := [("x-csrf-token".data, "tokX".data)], text := [] }

/-- Witness for C4: a markerless lock response leaves the token absent. -/
theorem C4_lock_missing_marker_witness :
    (ADTObject.lock nomarker_server fresh_conn unlocked_obj).obj._lock = none :=
  (C4_lock_missing_marker nomarker_server fresh_conn unlocked_obj
    { status_code := 200
      headers := [("Content-Type".data, "text/html".data)]
      text := "oops".data }
    "text/html".data rfl (by decide) (by decide) (by decide)).2.1

/-- C5: `activate()` with an empty response body succeeds and leaves the
object unchanged; with a non-empty body it raises a `SAPCliError` whose
message includes that body (the body is a suffix of the message), also
leaving the object unchanged. -/
theorem C5_activate_body_contract (server : Server) (conn : Connection) (obj : ADTObject)
    (resp : AdtResponse)
    (hexec : (Connection.execute server conn "POST".data "activation".data
        activation_params activation_headers
        (some (activation_request_body conn obj))).result = .ok resp) :
    (resp.text = [] →
      (ADTObject.activate server conn obj).result = .ok () ∧
      (ADTObject.activate server conn obj).obj = obj) ∧
    (resp.text ≠ [] →
      (ADTObject.activate server conn obj).result
        = .error (.sapcliError ("Could not activate the object ".data ++ obj.name
            ++ ": ".data ++ resp.text)) ∧
      (ADTObject.activate server conn obj).obj = obj ∧
      resp.text <:+ ("Could not activate the object ".data ++ obj.name
          ++ ": ".data ++ resp.text)) := by
  rcases hE : Connection.execute server conn "POST".data "activation".data
      activation_params activation_headers
      (some (activation_request_body conn obj)) with ⟨r, conn1, tr⟩
  rw [hE] at hexec
  dsimp only at hexec
  subst hexec
  unfold ADTObject.activate
  rw [hE]
  dsimp only
  constructor
  · intro hempty
    rw [if_pos hempty]
    exact ⟨rfl, rfl⟩
  · intro hne
    rw [if_neg hne]
    exact ⟨rfl, rfl, List.suffix_append _ _⟩

/-- A server whose activation response has a non-empty body, for the C5
witness. -/
def activation_fail_server : Server := fun req =>
  if req.params = activation_params then
    { status_code := 200, headers := [], text := "errors occurred".data }
  else
    { status_code := 200, headers := [("x-csrf-token".data, "tokX".data)], text := [] }

/-- Witness for C5: empty body means success, non-empty body raises. -/
theorem C5_activate_body_contract_witness :
    (ADTObject.activate csrf_server fresh_conn unlocked_obj).result = .ok () ∧
    (ADTObject.activate activation_fail_server fresh_conn unlocked_obj).result
      = .error (.sapcliError ("Could not activate the object ".data
          ++ unlocked_obj.name ++ ": ".data ++ "errors occurred".data)) :=
  ⟨((C5_activate_body_contract csrf_server fresh_conn unlocked_obj
      { status_code := 200, headers := [("x-csrf-token".data, "tokX".data)], text := [] }
      (by decide)).1 (by decide)).1,
   ((C5_activate_body_contract activation_fail_server fresh_conn unlocked_obj
      { status_code := 200, headers := [], text := "errors occurred".data }
      (by decide)).2 (by decide)).1⟩

/-- Counterexample to C6 as stated: on the Package type the call does
raise a `SAPCliError`-class error, but its message is the literal
`Object {type} does not support plain 'text' format`, not
`unsupported text representation`. -/
theorem C6_message_counterexample :
    Package.OBJTYPE.get_uri_for_type "text/plain".data
      = .error (.sapcliError unsupported_format_message) ∧
    unsupported_format_message ≠ "unsupported text representation".data := by
  exact ⟨by rfl, by decide⟩

/-- C6 (amended): `get_uri_for_type('text/plain')` on the Program type
returns `/source/main`; the same call on the Package type (no MIME
mapping) raises a `SAPCliError`-class error whose message is the literal
`Object {type} does not support plain 'text' format`. -/
theorem C6_get_uri_for_type :
    Program.OBJTYPE.get_uri_for_type "text/plain".data = .ok "/source/main".data ∧
    Package.OBJTYPE.get_uri_for_type "text/plain".data
      = .error (.sapcliError unsupported_format_message) := by
  exact ⟨by rfl, by rfl⟩

/-- C7: for a type built with the ordered-member metaclass, the
serialization registry starts with the inherited registry of the base
class (in its order) and continues with exactly the member names declared
in the class body, in declaration order. -/
theorem C7_ordered_members_declaration_order
    (bases : List PyClass) (parent : PyClass) (po : List String) (classdict : List String)
    (hlast : bases.getLast? = some parent) (hord : parent.ordered = some po) :
    (ordered_members bases classdict).take po.length = po ∧
    (ordered_members bases classdict).drop po.length
      = classdict.filter (fun key => key != "__module__" && key != "__qualname__") := by
  unfold ordered_members
  rw [hlast]
  dsimp only
  rw [hord]
  exact ⟨List.take_left po _, List.drop_left po _⟩

/-- A base class carrying two registered members, for witnesses. -/
def base_with_members : PyClass := { ordered := some ["base_a", "base_b"] }

/-- Witness for C7 on a concrete class body. -/
theorem C7_ordered_members_declaration_order_witness :
    (ordered_members [base_with_members]
      ["__module__", "__qualname__", "sub_c", "sub_d"]).take 2 = ["base_a", "base_b"] ∧
    (ordered_members [base_with_members]
      ["__module__", "__qualname__", "sub_c", "sub_d"]).drop 2 = ["sub_c", "sub_d"] := by
  have h := C7_ordered_members_declaration_order [base_with_members] base_with_members
    ["base_a", "base_b"] ["__module__", "__qualname__", "sub_c", "sub_d"] rfl rfl
  exact ⟨h.1, h.2.trans (by decide)⟩

/-- C10: when a class is defined with more than one base class, only the
last base's registry is inherited: the registry equals the last base's
members followed by the class-body members, and a member of an earlier
base that is in neither list is absent from the registry. -/
theorem C10_multiple_bases_last_only
    (first last : PyClass) (rest : List PyClass) (bases : List PyClass)
    (po o1 : List String) (m : String) (classdict : List String)
    (hbases : bases = first :: rest) (hrest : rest ≠ [])
    (hlast : bases.getLast? = some last) (hordN : last.ordered = some po)
    (hord1 : first.ordered = some o1) (hm : m ∈ o1)
    (hmpo : m ∉ po) (hmcd : m ∉ classdict) :
    ordered_members bases classdict
      = po ++ classdict.filter (fun key => key != "__module__" && key != "__qualname__") ∧
    m ∉ ordered_members bases classdict := by
  have heq : ordered_members bases classdict
      = po ++ classdict.filter (fun key => key != "__module__" && key != "__qualname__") := by
    unfold ordered_members
    rw [hlast]
    dsimp only
    rw [hordN]
  refine ⟨heq, ?_⟩
  rw [heq]
  intro hmem
  rw [List.mem_append] at hmem
  rcases hmem with hmem | hmem
  · exact hmpo hmem
  · exact hmcd (List.mem_of_mem_filter hmem)

/-- A base class with a member that C10 shows is dropped. -/
def first_base : PyClass := { ordered := some ["only_in_first"] }

/-- Witness for C10 on a concrete pair of bases. -/
theorem C10_multiple_bases_last_only_witness :
    ordered_members [first_base, base_with_members] ["__module__", "__qualname__", "own"]
      = ["base_a", "base_b", "own"] ∧
    "only_in_first" ∉ ordered_members [first_base, base_with_members]
      ["__module__", "__qualname__", "own"] := by
  have h := C10_multiple_bases_last_only first_base base_with_members [base_with_members]
    [first_base, base_with_members] ["base_a", "base_b"] ["only_in_first"] "only_in_first"
    ["__module__", "__qualname__", "own"] rfl (by decide) rfl rfl rfl (by decide)
    (by decide) (by decide)
  refine ⟨?_, h.2⟩
  rw [h.1]
  decide

/-- A server whose lock response carries the lock-result marker but has
the lock-handle tag only on the second line of the body, for the C3
counterexample. -/
def second_line_server : Server := fun req =>
  if req.params = lock_params LOCK_ACCESS_MODE_MODIFY then
    { status_code := 200
      headers := [("Content-Type".data,
        "application/vnd.sap.as+xml; charset=utf-8; dataname=com.sap.adt.lock.Result".data)]
      text := "x\n<LOCK_HANDLE>XYZ123</LOCK_HANDLE>".data }
  else
    { status_code := 200, headers := [("x-csrf-token".data, "tokX".data)], text := [] }

/-- Counterexample to C3 as stated: this lock response contains
`<LOCK_HANDLE>XYZ123</LOCK_HANDLE>` in its body (as the only occurrence
of the tag) and carries the content-type marker, yet `lock()` does not
succeed and stores no token: the scrape is an anchored `re.match` whose
`.` does not match a newline, so the tag on the second line is never
found, the match is `None`, and the `[1]` subscript raises `TypeError`. -/
theorem C3_anywhere_counterexample :
    isSubstring "<LOCK_HANDLE>XYZ123</LOCK_HANDLE>".data
      "x\n<LOCK_HANDLE>XYZ123</LOCK_HANDLE>".data = true ∧
    (ADTObject.lock second_line_server fresh_conn unlocked_obj).result
      = .error .typeError ∧
    (ADTObject.lock second_line_server fresh_conn unlocked_obj).obj._lock = none := by
  exact ⟨by decide, by decide, by decide⟩

/-- C3 (amended): when the lock response carries the content-type marker
and its body contains `<LOCK_HANDLE>XYZ123</LOCK_HANDLE>` within the
FIRST LINE of the body text (nothing before it on that line may contain a
newline, and the closing tag occurs only once in that line), `lock()`
succeeds and stores exactly `XYZ123` as the lock token.  (As originally
stated — tag anywhere in the response text — the claim fails; the scrape
is anchored to the first line.) -/
theorem C3_lock_handle_extraction (server : Server) (conn : Connection) (obj : ADTObject)
    (resp : AdtResponse) (ct : Str) (a c : Str)
    (hnone : obj._lock = none)
    (hexec : (Connection.execute server conn "POST".data obj.uri
        (lock_params LOCK_ACCESS_MODE_MODIFY) lock_request_headers none).result = .ok resp)
    (hct : dictGet resp.headers "Content-Type".data = some ct)
    (hmarker : isSubstring lock_result_marker ct = true)
    (htext : resp.text = a ++ "<LOCK_HANDLE>XYZ123</LOCK_HANDLE>".data ++ c)
    (hline : '\n' ∉ a)
    (honce : isSubstring CLOSE_TAG
        (CLOSE_TAG.drop 1 ++ c.takeWhile (fun ch => ch != '\n')) = false) :
    (ADTObject.lock server conn obj).result = .ok () ∧
    (ADTObject.lock server conn obj).obj._lock = some "XYZ123".data := by
  have honce2 : ∀ b2 a2,
      CLOSE_TAG.drop 1 ++ c.takeWhile (fun ch => ch != '\n') ≠ b2 ++ CLOSE_TAG ++ a2 := by
    intro b2 a2 heq
    have htrue : isSubstring CLOSE_TAG
        (CLOSE_TAG.drop 1 ++ c.takeWhile (fun ch => ch != '\n')) = true :=
      (isSubstring_iff _ _).mpr ⟨b2, a2, heq⟩
    rw [honce] at htrue
    exact absurd htrue (by simp)
  have hre : re_match_lock_handle resp.text = some "XYZ123".data := by
    have hT : "<LOCK_HANDLE>XYZ123</LOCK_HANDLE>".data
        = OPEN_TAG ++ ("XYZ123".data ++ CLOSE_TAG) := by decide
    rw [htext, hT]
    have h2 := re_match_lock_handle_eq a "XYZ123".data c hline (by decide) (by decide) honce2
    simp only [List.append_assoc] at h2 ⊢
    exact h2
  rcases hE : Connection.execute server conn "POST".data obj.uri
      (lock_params LOCK_ACCESS_MODE_MODIFY) lock_request_headers none with ⟨r, conn1, tr⟩
  rw [hE] at hexec
  dsimp only at hexec
  subst hexec
  unfold ADTObject.lock
  rw [hnone, hE]
  dsimp only
  rw [hct]
  dsimp only
  rw [if_pos hmarker, hre]
  exact ⟨rfl, rfl⟩

/-- A server with a well-formed single-line lock response and a successful
unlock response, for the C3 and C1 witnesses. -/
def lock_ok_server : Server := fun req =>
  if req.params = lock_params LOCK_ACCESS_MODE_MODIFY then
    { status_code := 200
      headers := [("Content-Type".data,
        "application/vnd.sap.as+xml; charset=utf-8; dataname=com.sap.adt.lock.Result".data)]
      text := "<foo><LOCK_HANDLE>XYZ123</LOCK_HANDLE></foo>".data }
  else if req.params = unlock_params "XYZ123".data then
    { status_code := 200, headers := [], text := [] }
  else
    { status_code := 200, headers := [("x-csrf-token".data, "tokX".data)], text := [] }

/-- Witness for the amended C3 on a concrete single-line lock response. -/
theorem C3_lock_handle_extraction_witness :
    (ADTObject.lock lock_ok_server fresh_conn unlocked_obj).result = .ok () ∧
    (ADTObject.lock lock_ok_server fresh_conn unlocked_obj).obj._lock
      = some "XYZ123".data :=
  C3_lock_handle_extraction lock_ok_server fresh_conn unlocked_obj
    { status_code := 200
      headers := [("Content-Type".data,
        "application/vnd.sap.as+xml; charset=utf-8; dataname=com.sap.adt.lock.Result".data)]
      text := "<foo><LOCK_HANDLE>XYZ123</LOCK_HANDLE></foo>".data }
    "application/vnd.sap.as+xml; charset=utf-8; dataname=com.sap.adt.lock.Result".data
    "<foo>".data "</foo>".data rfl (by decide) (by decide) (by decide) (by decide)
    (by decide) (by decide)

theorem lock_ok_inv (server : Server) (conn : Connection) (obj : ADTObject)
    (hok : (ADTObject.lock server conn obj).result = .ok ()) :
    ∃ resp ct handle,
      obj._lock = none ∧
      (Connection.execute server conn "POST".data obj.uri
        (lock_params LOCK_ACCESS_MODE_MODIFY) lock_request_headers none).result = .ok resp ∧
      dictGet resp.headers "Content-Type".data = some ct ∧
      isSubstring lock_result_marker ct = true ∧
      re_match_lock_handle resp.text = some handle ∧
      ADTObject.lock server conn obj
        = { result := .ok ()
            obj := { obj with _lock := some handle }
            conn := (Connection.execute server conn "POST".data obj.uri
              (lock_params LOCK_ACCESS_MODE_MODIFY) lock_request_headers none).conn
            trace := (Connection.execute server conn "POST".data obj.uri
              (lock_params LOCK_ACCESS_MODE_MODIFY) lock_request_headers none).trace } := by
  cases hobj : obj._lock with
  | some h0 =>
    unfold ADTObject.lock at hok
    rw [hobj] at hok
    simp at hok
  | none =>
    rcases hE : Connection.execute server conn "POST".data obj.uri
        (lock_params LOCK_ACCESS_MODE_MODIFY) lock_request_headers none with ⟨r1, conn1, tr1⟩
    unfold ADTObject.lock at hok
    rw [hobj, hE] at hok
    cases r1 with
    | error e => simp at hok
    | ok resp =>
      cases hct : dictGet resp.headers "Content-Type".data with
      | none => simp [hct] at hok
      | some ct =>
        by_cases hmark : isSubstring lock_result_marker ct = true
        · cases hre : re_match_lock_handle resp.text with
          | none => simp [hct, hmark, hre] at hok
          | some handle =>
            refine ⟨resp, ct, handle, rfl, by dsimp only, hct, hmark, hre, ?_⟩
            unfold ADTObject.lock
            rw [hobj, hE]
            dsimp only
            rw [hct]
            dsimp only
            rw [if_pos hmark, hre]
        · simp [hct, hmark] at hok

theorem unlock_with_session_ok (server : Server) (conn : Connection) (obj : ADTObject)
    (handle : Str) (s : Session)
    (hl : obj._lock = some handle) (hs : conn.session = some s)
    (hok : (ADTObject.unlock server conn obj).result = .ok ()) :
    ADTObject.unlock server conn obj
      = { result := .ok (), obj := { obj with _lock := none }, conn := conn
          trace := (execute_with_session server s.headers "POST".data
            (conn.build_adt_url obj.uri) (unlock_params handle)
            [("X-sap-adt-sessiontype".data, "stateful".data)] none).trace } := by
  unfold ADTObject.unlock at hok ⊢
  rw [hl] at hok ⊢
  dsimp only
  rw [execute_of_session_some server conn s "POST".data obj.uri (unlock_params handle)
    [("X-sap-adt-sessiontype".data, "stateful".data)] none hs]
  cases hr2 : (execute_with_session server s.headers "POST".data
      (conn.build_adt_url obj.uri) (unlock_params handle)
      [("X-sap-adt-sessiontype".data, "stateful".data)] none).result with
  | error e =>
    simp [execute_of_session_some server conn s "POST".data obj.uri (unlock_params handle)
      [("X-sap-adt-sessiontype".data, "stateful".data)] none hs, hr2] at hok
  | ok resp2 => dsimp only

theorem lock_from_unlocked (server : Server) (conn : Connection) (obj : ADTObject)
    (s : Session) (resp : AdtResponse) (ct : Str) (handle : Str)
    (hobj : obj._lock = none) (hs : conn.session = some s)
    (hews : (execute_with_session server s.headers "POST".data
        (conn.build_adt_url obj.uri) (lock_params LOCK_ACCESS_MODE_MODIFY)
        lock_request_headers none).result = .ok resp)
    (hct : dictGet resp.headers "Content-Type".data = some ct)
    (hmark : isSubstring lock_result_marker ct = true)
    (hre : re_match_lock_handle resp.text = some handle) :
    (ADTObject.lock server conn obj).result = .ok () := by
  unfold ADTObject.lock
  rw [hobj]
  rw [execute_of_session_some server conn s "POST".data obj.uri
    (lock_params LOCK_ACCESS_MODE_MODIFY) lock_request_headers none hs]
  rw [hews]
  dsimp only
  rw [hct]
  dsimp only
  rw [if_pos hmark, hre]

/-- C1: a successful `lock()` followed by a successful `unlock()` on the
resulting state leaves the local lock token absent, and a further `lock()`
on that state (same server, same connection) succeeds again — in
particular it does not raise the already-locked error. -/
theorem C1_lock_unlock_relock (server : Server) (conn : Connection) (obj : ADTObject)
    (h1 : (ADTObject.lock server conn obj).result = .ok ())
    (h2 : (ADTObject.unlock server (ADTObject.lock server conn obj).conn
        (ADTObject.lock server conn obj).obj).result = .ok ()) :
    (ADTObject.unlock server (ADTObject.lock server conn obj).conn
        (ADTObject.lock server conn obj).obj).obj._lock = none ∧
    (ADTObject.lock server
        (ADTObject.unlock server (ADTObject.lock server conn obj).conn
          (ADTObject.lock server conn obj).obj).conn
        (ADTObject.unlock server (ADTObject.lock server conn obj).conn
          (ADTObject.lock server conn obj).obj).obj).result = .ok () := by
  obtain ⟨resp, ct, handle, hobj, hexec, hct, hmark, hre, hlockeq⟩ :=
    lock_ok_inv server conn obj h1
  obtain ⟨s, hsess, hbase, hquery, hews⟩ :=
    execute_ok_session server conn "POST".data obj.uri
      (lock_params LOCK_ACCESS_MODE_MODIFY) lock_request_headers none resp hexec
  rw [hlockeq] at h2 ⊢
  dsimp only at h2 ⊢
  have huneq := unlock_with_session_ok server
    (Connection.execute server conn "POST".data obj.uri
      (lock_params LOCK_ACCESS_MODE_MODIFY) lock_request_headers none).conn
    { obj with _lock := some handle } handle s rfl hsess h2
  rw [huneq]
  dsimp only
  refine ⟨rfl, ?_⟩
  have hurl : (Connection.execute server conn "POST".data obj.uri
      (lock_params LOCK_ACCESS_MODE_MODIFY) lock_request_headers none).conn.build_adt_url
        obj.uri
      = conn.build_adt_url obj.uri := by
    unfold Connection.build_adt_url
    rw [hbase, hquery]
  apply lock_from_unlocked server _ _ s resp ct handle rfl hsess _ hct hmark hre
  show (execute_with_session server s.headers "POST".data
      ((Connection.execute server conn "POST".data obj.uri
        (lock_params LOCK_ACCESS_MODE_MODIFY) lock_request_headers none).conn.build_adt_url
          obj.uri)
      (lock_params LOCK_ACCESS_MODE_MODIFY) lock_request_headers none).result = .ok resp
  rw [hurl]
  exact hews

/-- Witness for C1: a full lock-unlock-relock round trip on a concrete
server succeeds. -/
theorem C1_lock_unlock_relock_witness :
    (ADTObject.unlock lock_ok_server
        (ADTObject.lock lock_ok_server fresh_conn unlocked_obj).conn
        (ADTObject.lock lock_ok_server fresh_conn unlocked_obj).obj).obj._lock = none ∧
    (ADTObject.lock lock_ok_server
        (ADTObject.unlock lock_ok_server
          (ADTObject.lock lock_ok_server fresh_conn unlocked_obj).conn
          (ADTObject.lock lock_ok_server fresh_conn unlocked_obj).obj).conn
        (ADTObject.unlock lock_ok_server
          (ADTObject.lock lock_ok_server fresh_conn unlocked_obj).conn
          (ADTObject.lock lock_ok_server fresh_conn unlocked_obj).obj).obj).result
      = .ok () :=
  C1_lock_unlock_relock lock_ok_server fresh_conn unlocked_obj (by decide) (by decide)

end Sapcli
